import Mathlib

/-!
Shallow embedding of the api_geolocation service (src/api_geolocation/main.py).

The SQLite table `geolocation` is modelled as a list of rows; SQL statements
issued by the handlers are modelled both textually (the statement string and
the bound-parameter list, mirroring the string assembly in the source) and
semantically (list filtering / mapping, the standard semantics of the
equality-conjunction SELECT and UPDATE statements the handlers build).

Error behaviour: every `cursor.execute` site can be made to raise
`sqlite3.Error` through an explicit Boolean injection flag, one flag per
statement (per try-block statement in the write handlers).  `Outcome.httpExc`
models a raised `HTTPException`; `Outcome.uncaught` models an exception that
leaves the handler uncaught (the read handlers have no try/except around
their statements).  A handler result also carries the resulting table state
and the list of `logging.error` calls made.

Note on `RecordInput`: in the source, `sanitize_strings` is decorated with
`@classmethod` placed ABOVE `@field_validator`.  Pydantic v2 discovers
validators by scanning the class namespace for `PydanticDescriptorProxy`
attributes; wrapping the proxy in `classmethod` hides it, so the validator is
silently never registered and field values are stored verbatim.  The
embedding therefore keeps `RecordInput` fields as given; the (never invoked)
sanitizer body `value.strip().title()` is embedded separately as
`sanitize_strings`.
-/

namespace ApiGeolocation

/-- A value bound as a SQL parameter: Python str, int or float
(floats are only carried through, never computed with, so they are
embedded as rationals). -/
inductive Value where
  | str (s : String)
  | int (n : Int)
  | real (q : Rat)
deriving DecidableEq

/-- A row of the `geolocation` table
(schema: id INTEGER PRIMARY KEY AUTOINCREMENT, ip_address TEXT NOT NULL,
country TEXT, region TEXT, city TEXT, zip INTEGER, latitude REAL,
longitude REAL). -/
structure Row where
  id : Nat
  ip_address : String
  country : String
  region : String
  city : String
  zip : Int
  latitude : Rat
  longitude : Rat
deriving DecidableEq

/-- The response model `Record` of main.py. -/
structure Record where
  ip_address : String
  country : String
  region : String
  city : String
  zip_code : Int
  latitude : Rat
  longitude : Rat
deriving DecidableEq

/-- The request model `RecordInput` of main.py.  Field values are stored
verbatim: the `sanitize_strings` validator is never registered by pydantic
(the `@classmethod` decorator is stacked above `@field_validator`, hiding the
descriptor proxy from pydantic's namespace scan). -/
structure RecordInput where
  ip : String
  country : String
  region : String
  city : String
  zip_code : Int
  latitude : Rat
  longitude : Rat
deriving DecidableEq

/-- Python `str.strip()`: drop leading and trailing whitespace. -/
def pythonStrip (s : String) : String :=
  String.mk (((s.toList.dropWhile Char.isWhitespace).reverse.dropWhile
    Char.isWhitespace).reverse)

/-- Helper for Python `str.title()`: the Boolean records whether the previous
character was cased (alphabetic). -/
def pythonTitleGo : Bool → List Char → List Char
  | _, [] => []
  | prevCased, c :: cs =>
    (if c.isAlpha then (if prevCased then c.toLower else c.toUpper) else c)
      :: pythonTitleGo c.isAlpha cs

/-- Python `str.title()` (restricted to the alphabetic/non-alphabetic
distinction, which agrees with Python on the ASCII inputs used here). -/
def pythonTitle (s : String) : String :=
  String.mk (pythonTitleGo false s.toList)

/-- Body of `RecordInput.sanitize_strings` in main.py:
`value.strip().title()`.  The source defines it but, because of the decorator
order, pydantic never invokes it. -/
def sanitize_strings (value : String) : String :=
  pythonTitle (pythonStrip value)

/-- The pydantic field constraints of `RecordInput`
(ip: length 7 to 45; strings: length 1 to 100; zip_code >= 1). -/
def RecordInput.Valid (r : RecordInput) : Prop :=
  7 ≤ r.ip.length ∧ r.ip.length ≤ 45 ∧
  1 ≤ r.country.length ∧ r.country.length ≤ 100 ∧
  1 ≤ r.region.length ∧ r.region.length ≤ 100 ∧
  1 ≤ r.city.length ∧ r.city.length ≤ 100 ∧
  1 ≤ r.zip_code

instance (r : RecordInput) : Decidable r.Valid := by
  unfold RecordInput.Valid
  infer_instance

/-- `__transform_rows_to_records` of main.py: one `Record` per row,
renaming `zip` to `zip_code`. -/
def transform_rows_to_records (rows : List Row) : List Record :=
  rows.map fun row =>
    { ip_address := row.ip_address
      country := row.country
      region := row.region
      city := row.city
      zip_code := row.zip
      latitude := row.latitude
      longitude := row.longitude }

/-- Semantics of `SELECT * FROM geolocation WHERE ip_address = ?`. -/
def selectByIp (db : List Row) (ip : String) : List Row :=
  db.filter fun r => r.ip_address = ip

/-- Outcome of a handler call: a returned value, a raised `HTTPException`
(status code, detail), or an exception leaving the handler uncaught. -/
inductive Outcome (α : Type) where
  | ok (val : α)
  | httpExc (status : Nat) (detail : String)
  | uncaught
deriving DecidableEq

/-- Result of a write handler: the outcome, the table state afterwards, and
the `logging.error` messages emitted. -/
structure WriteResult (α : Type) where
  outcome : Outcome α
  db : List Row
  log : List String
deriving DecidableEq

/-- Handler `get_ip_info` (GET /ips/ip).  `fail` injects an
`sqlite3.Error` into its single statement; the handler has no try/except, so
the exception leaves it uncaught. -/
def get_ip_info (fail : Bool) (ip : String) (db : List Row) :
    Outcome (List Record) :=
  if fail then .uncaught
  else
    let rows := selectByIp db ip
    if rows = [] then .httpExc 404 ("No data found for ip=" ++ ip ++ "!")
    else .ok (transform_rows_to_records rows)

/-- The optional query parameters of the filter-search endpoint. -/
structure FilterParams where
  ip : Option String
  country : Option String
  region : Option String
  city : Option String
  zip_code : Option Int
  latitude : Option Rat
  longitude : Option Rat
deriving DecidableEq

/-- `_RECORD_TO_SQL_MAPPER` of `get_ip_info_by_parameters`: the ordered
column-to-optional-value mapping (dicts preserve insertion order). -/
def FilterParams.toSqlMapper (p : FilterParams) : List (String × Option Value) :=
  [("ip_address", p.ip.map Value.str),
   ("country", p.country.map Value.str),
   ("region", p.region.map Value.str),
   ("city", p.city.map Value.str),
   ("zip", p.zip_code.map Value.int),
   ("latitude", p.latitude.map Value.real),
   ("longitude", p.longitude.map Value.real)]

/-- The condition-building loop shared by the filter-search and update
handlers: for each present value append a condition string and
a bound parameter, in mapper order. -/
def buildConditions (pairs : List (String × Option Value)) :
    List String × List Value :=
  pairs.foldl
    (fun acc pair =>
      match pair.2 with
      | some v => (acc.1 ++ [pair.1 ++ " = ?"], acc.2 ++ [v])
      | none => acc)
    ([], [])

/-- The present (column, value) pairs of a mapper, in order. -/
def presentPairs (pairs : List (String × Option Value)) :
    List (String × Value) :=
  pairs.filterMap fun pair => pair.2.map fun v => (pair.1, v)

/-- The LIMIT clause appended by `get_ip_info_by_parameters`
(`if limit:` — Python truthiness, so absent or zero appends nothing). -/
def limitClause : Option Nat → String
  | some l => if l = 0 then "" else " LIMIT " ++ toString l
  | none => ""

/-- The SELECT statement text assembled by `get_ip_info_by_parameters`. -/
def filterQueryText (conds : List String) (limit : Option Nat) : String :=
  let base := "SELECT * FROM geolocation"
  let q := if conds = [] then base
    else base ++ " WHERE " ++ String.intercalate " AND " conds
  q ++ limitClause limit

/-- The statement text and bound parameters built by the filter-search
handler. -/
def filter_search_query (p : FilterParams) (limit : Option Nat) :
    String × List Value :=
  let built := buildConditions p.toSqlMapper
  (filterQueryText built.1 limit, built.2)

/-- Column access on a row, for the semantics of a `column = ?` condition. -/
def Row.colValue (r : Row) (col : String) : Option Value :=
  if col = "ip_address" then some (.str r.ip_address)
  else if col = "country" then some (.str r.country)
  else if col = "region" then some (.str r.region)
  else if col = "city" then some (.str r.city)
  else if col = "zip" then some (.int r.zip)
  else if col = "latitude" then some (.real r.latitude)
  else if col = "longitude" then some (.real r.longitude)
  else none

/-- A row satisfies every present `column = ?` condition of the mapper. -/
def rowMatches (pairs : List (String × Option Value)) (r : Row) : Bool :=
  pairs.all fun pair =>
    match pair.2 with
    | some v => r.colValue pair.1 = some v
    | none => true

/-- Semantics of the assembled SELECT: conjunctive equality filter, then
LIMIT (absent or zero limit returns everything). -/
def runFilterSelect (db : List Row) (pairs : List (String × Option Value))
    (limit : Option Nat) : List Row :=
  let matched := db.filter (rowMatches pairs)
  match limit with
  | some l => if l = 0 then matched else matched.take l
  | none => matched

/-- The `not any(param is not None ...)` guard of the filter-search
handler. -/
def FilterParams.allAbsent (p : FilterParams) : Bool :=
  p.ip.isNone && p.country.isNone && p.region.isNone && p.city.isNone &&
    p.zip_code.isNone && p.latitude.isNone && p.longitude.isNone

/-- Handler `get_ip_info_by_parameters` (GET /ips/).  `fail` injects an
`sqlite3.Error` into its single statement; the handler has no try/except. -/
def get_ip_info_by_parameters (fail : Bool) (p : FilterParams)
    (limit : Option Nat) (db : List Row) : Outcome (List Record) :=
  if p.allAbsent then
    .httpExc 400 "At least one filtering parameter must be provided."
  else if fail then .uncaught
  else
    let rows := runFilterSelect db p.toSqlMapper limit
    if rows = [] then .httpExc 404 "No data found for provided parameters!"
    else .ok (transform_rows_to_records rows)

/-- SQLite AUTOINCREMENT id for a fresh insert: one more than the largest
id in the table. -/
def newRowId (db : List Row) : Nat :=
  (db.foldl (fun m r => max m r.id) 0) + 1

/-- The row inserted by `add_ip` for a given input. -/
def RecordInput.toRow (rec : RecordInput) (id : Nat) : Row :=
  { id := id
    ip_address := rec.ip
    country := rec.country
    region := rec.region
    city := rec.city
    zip := rec.zip_code
    latitude := rec.latitude
    longitude := rec.longitude }

/-- Handler `add_ip` (POST /).  `failCheck` injects an `sqlite3.Error` into
the existence-check SELECT (caught, surfaced as 500 with empty detail, not
logged); `failInsert` injects one into the INSERT/commit block (caught,
surfaced as 500 with empty detail, logged). -/
def add_ip (failCheck failInsert : Bool) (record : RecordInput)
    (db : List Row) : WriteResult RecordInput :=
  if failCheck then ⟨.httpExc 500 "", db, []⟩
  else if selectByIp db record.ip ≠ [] then
    ⟨.httpExc 400 ("Address with ip=" ++ record.ip ++ " already exists!"),
      db, []⟩
  else if failInsert then ⟨.httpExc 500 "", db, ["Database error"]⟩
  else ⟨.ok record, db ++ [record.toRow (newRowId db)], []⟩

/-- The optional update fields of the update endpoint
(`ip_address` itself is not updatable). -/
structure UpdateParams where
  country : Option String
  region : Option String
  city : Option String
  zip_code : Option Int
  latitude : Option Rat
  longitude : Option Rat
deriving DecidableEq

/-- `_RECORD_TO_SQL_MAPPER` of `update_data`: the ordered column-to-value
mapping of the updatable columns. -/
def UpdateParams.toSqlMapper (p : UpdateParams) : List (String × Option Value) :=
  [("country", p.country.map Value.str),
   ("region", p.region.map Value.str),
   ("city", p.city.map Value.str),
   ("zip", p.zip_code.map Value.int),
   ("latitude", p.latitude.map Value.real),
   ("longitude", p.longitude.map Value.real)]

/-- The `all(param is None ...)` guard of the update handler. -/
def UpdateParams.allAbsent (p : UpdateParams) : Bool :=
  p.country.isNone && p.region.isNone && p.city.isNone &&
    p.zip_code.isNone && p.latitude.isNone && p.longitude.isNone

/-- Semantics of a single `column = ?` SET assignment on a row. -/
def Row.setCol (r : Row) (col : String) (v : Value) : Row :=
  match col, v with
  | "country", .str s => { r with country := s }
  | "region", .str s => { r with region := s }
  | "city", .str s => { r with city := s }
  | "zip", .int n => { r with zip := n }
  | "latitude", .real q => { r with latitude := q }
  | "longitude", .real q => { r with longitude := q }
  | _, _ => r

/-- Apply a SET assignment list left to right. -/
def applyAssignments (assigns : List (String × Value)) (r : Row) : Row :=
  assigns.foldl (fun row a => Row.setCol row a.1 a.2) r

/-- Semantics of
`UPDATE geolocation SET assignments WHERE ip_address = ?`:
every row whose `ip_address` matches receives every assignment. -/
def runUpdate (db : List Row) (assigns : List (String × Value))
    (ip : String) : List Row :=
  db.map fun r => if r.ip_address = ip then applyAssignments assigns r else r

/-- The UPDATE statement text assembled by `update_data`. -/
def updateQueryText (updates : List String) : String :=
  "UPDATE geolocation SET " ++ String.intercalate ", " updates ++
    " WHERE ip_address = ?"

/-- The statement text and bound parameters built by the update handler:
the assignment fragments and values in mapper order, the target ip appended
last for the WHERE clause. -/
def update_data_query (ip : String) (p : UpdateParams) :
    String × List Value :=
  let built := buildConditions p.toSqlMapper
  (updateQueryText built.1, built.2 ++ [Value.str ip])

/-- Handler `update_data` (PUT /ips/ip).  `failCheck` injects an
`sqlite3.Error` into the existence-check SELECT (caught, 500, empty detail,
not logged); `failUpdate` into the UPDATE/commit (caught, 500, logged, table
unchanged); `failReread` into the re-read SELECT (caught, 500, logged, but
the update is already committed). -/
def update_data (failCheck failUpdate failReread : Bool) (ip : String)
    (p : UpdateParams) (db : List Row) : WriteResult Record :=
  if p.allAbsent then ⟨.httpExc 400 "No parameters passed!", db, []⟩
  else if failCheck then ⟨.httpExc 500 "", db, []⟩
  else if selectByIp db ip = [] then
    ⟨.httpExc 404 ("No data found for ip=" ++ ip ++ "!"), db, []⟩
  else if failUpdate then ⟨.httpExc 500 "", db, ["Database error"]⟩
  else
    let db2 := runUpdate db (presentPairs p.toSqlMapper) ip
    if failReread then ⟨.httpExc 500 "", db2, ["Database error"]⟩
    else
      match transform_rows_to_records (selectByIp db2 ip) with
      | [] => ⟨.uncaught, db2, []⟩
      | r :: _ => ⟨.ok r, db2, []⟩

instance : Inhabited Record :=
  ⟨{ ip_address := "", country := "", region := "", city := "",
     zip_code := 0, latitude := 0, longitude := 0 }⟩

/-! ### Helper lemmas -/

theorem buildConditions_loop (pairs : List (String × Option Value)) :
    ∀ accC accP : List _,
      pairs.foldl
        (fun acc pair =>
          match pair.2 with
          | some v => (acc.1 ++ [pair.1 ++ " = ?"], acc.2 ++ [v])
          | none => acc)
        (accC, accP) =
      (accC ++ (presentPairs pairs).map (fun a => a.1 ++ " = ?"),
       accP ++ (presentPairs pairs).map Prod.snd) := by
  induction pairs with
  | nil => intro accC accP; simp [presentPairs]
  | cons head tail ih =>
    intro accC accP
    cases h : head.2 with
    | none =>
      simp only [List.foldl_cons, h]
      rw [ih]
      simp [presentPairs, h]
    | some v =>
      simp only [List.foldl_cons, h]
      rw [ih]
      simp [presentPairs, h]

theorem buildConditions_eq (pairs : List (String × Option Value)) :
    buildConditions pairs =
      ((presentPairs pairs).map (fun a => a.1 ++ " = ?"),
       (presentPairs pairs).map Prod.snd) := by
  unfold buildConditions
  rw [buildConditions_loop]
  simp

theorem presentPairs_fst_sublist (pairs : List (String × Option Value)) :
    ((presentPairs pairs).map Prod.fst).Sublist (pairs.map Prod.fst) := by
  induction pairs with
  | nil => simp [presentPairs]
  | cons head tail ih =>
    cases h : head.2 with
    | none =>
      simp only [presentPairs, List.filterMap_cons, h, Option.map_none]
      exact (ih.trans (List.sublist_cons_self _ _))
    | some v =>
      simp only [presentPairs, List.filterMap_cons, h, Option.map_some,
        List.map_cons]
      exact List.Sublist.cons₂ _ ih

theorem presentPairs_eq_nil (pairs : List (String × Option Value)) :
    presentPairs pairs = [] ↔ ∀ pair ∈ pairs, pair.2 = none := by
  induction pairs with
  | nil => simp [presentPairs]
  | cons head tail ih =>
    cases h : head.2 with
    | none => simp [presentPairs, List.filterMap_cons, h, ← ih, presentPairs]
    | some v => simp [presentPairs, List.filterMap_cons, h]

theorem filterParams_present (p : FilterParams) (hp : p.allAbsent = false) :
    presentPairs p.toSqlMapper ≠ [] := by
  intro hnil
  rw [presentPairs_eq_nil] at hnil
  simp only [FilterParams.toSqlMapper, List.mem_cons, List.not_mem_nil,
    or_false, forall_eq_or_imp, forall_eq] at hnil
  obtain ⟨h1, h2, h3, h4, h5, h6, h7⟩ := hnil
  rw [Option.map_eq_none'] at h1 h2 h3 h4 h5 h6 h7
  simp [FilterParams.allAbsent, h1, h2, h3, h4, h5, h6, h7] at hp

theorem applyAssignments_toSqlMapper (p : UpdateParams) (r : Row) :
    applyAssignments (presentPairs p.toSqlMapper) r =
      { r with
        country := p.country.getD r.country
        region := p.region.getD r.region
        city := p.city.getD r.city
        zip := p.zip_code.getD r.zip
        latitude := p.latitude.getD r.latitude
        longitude := p.longitude.getD r.longitude } := by
  obtain ⟨c, rg, ci, z, la, lo⟩ := p
  cases c <;> cases rg <;> cases ci <;> cases z <;> cases la <;> cases lo <;>
    rfl

theorem applyAssignments_ip (p : UpdateParams) (r : Row) :
    (applyAssignments (presentPairs p.toSqlMapper) r).ip_address =
      r.ip_address := by
  rw [applyAssignments_toSqlMapper]

theorem applyAssignments_id (p : UpdateParams) (r : Row) :
    (applyAssignments (presentPairs p.toSqlMapper) r).id = r.id := by
  rw [applyAssignments_toSqlMapper]

theorem selectByIp_runUpdate (db : List Row) (p : UpdateParams)
    (ip : String) :
    selectByIp (runUpdate db (presentPairs p.toSqlMapper) ip) ip =
      (selectByIp db ip).map (applyAssignments (presentPairs p.toSqlMapper)) := by
  induction db with
  | nil => rfl
  | cons r tl ih =>
    by_cases h : r.ip_address = ip
    · simp only [selectByIp, runUpdate, List.map_cons, List.filter_cons] at ih ⊢
      simp [h, applyAssignments_ip, ih]
    · simp only [selectByIp, runUpdate, List.map_cons, List.filter_cons] at ih ⊢
      simp [h, ih]

theorem runUpdate_length (db : List Row) (assigns : List (String × Value))
    (ip : String) : (runUpdate db assigns ip).length = db.length := by
  simp [runUpdate]

theorem runUpdate_get (db : List Row) (assigns : List (String × Value))
    (ip : String) (i : Nat) :
    (runUpdate db assigns ip)[i]? =
      db[i]?.map
        fun r => if r.ip_address = ip then applyAssignments assigns r else r := by
  simp [runUpdate, List.getElem?_map]

theorem update_data_success_db (ip : String) (p : UpdateParams)
    (db : List Row) (hp : p.allAbsent = false)
    (hex : selectByIp db ip ≠ []) :
    (update_data false false false ip p db).db =
      runUpdate db (presentPairs p.toSqlMapper) ip := by
  simp only [update_data, hp, Bool.false_eq_true, if_false, hex, ite_false]
  split <;> rfl

theorem update_data_success_outcome (ip : String) (p : UpdateParams)
    (db : List Row) (hp : p.allAbsent = false)
    (hex : selectByIp db ip ≠ []) :
    (update_data false false false ip p db).outcome =
      .ok ((transform_rows_to_records
             (selectByIp (runUpdate db (presentPairs p.toSqlMapper) ip)
               ip)).headI) := by
  have hmap := selectByIp_runUpdate db p ip
  have hne : transform_rows_to_records
      (selectByIp (runUpdate db (presentPairs p.toSqlMapper) ip) ip) ≠ [] := by
    rw [hmap]
    simp [transform_rows_to_records, hex]
  obtain ⟨r, rest, hr⟩ := List.exists_cons_of_ne_nil hne
  simp [update_data, hp, hex, hr]

/-! ### Claim theorems -/

/-- C8: on well-formed storage rows the record mapper is total and produces
exactly one output record per input row, preserving order: the output list
has the same length, and the i-th output record carries the i-th row's
columns with `zip` renamed to `zip_code` (integer), the coordinates carried
as (floating-point) numbers, and all other columns under the same name. -/
theorem C8_mapper (rows : List Row) :
    (transform_rows_to_records rows).length = rows.length ∧
    ∀ i : Nat,
      (transform_rows_to_records rows)[i]? =
        rows[i]?.map fun row =>
          { ip_address := row.ip_address
            country := row.country
            region := row.region
            city := row.city
            zip_code := row.zip
            latitude := row.latitude
            longitude := row.longitude } := by
  constructor
  · simp [transform_rows_to_records]
  · intro i
    simp [transform_rows_to_records, List.getElem?_map]

/-- C4: with all seven filter parameters absent, the filter-search endpoint
fails with 400 (BadRequest) whatever the limit, the table state and the
statement-failure injection: the result does not depend on `db` or `fail`,
so no query is executed against storage. -/
theorem C4_no_filters_bad_request (fail : Bool) (limit : Option Nat)
    (db : List Row) :
    get_ip_info_by_parameters fail
        { ip := none, country := none, region := none, city := none,
          zip_code := none, latitude := none, longitude := none } limit db =
      .httpExc 400 "At least one filtering parameter must be provided." := rfl

/-- C3: creating a `RecordInput` whose ip already has at least one stored
row yields the duplicate-IP Conflict rejection (HTTP 400, "already exists")
and inserts nothing (the table is unchanged); in particular creating the
same ip twice sequentially succeeds on the first attempt and yields the
Conflict rejection on the second. -/
theorem C3_duplicate_conflict :
    (∀ (rec : RecordInput) (db : List Row) (failInsert : Bool),
       selectByIp db rec.ip ≠ [] →
       add_ip false failInsert rec db =
         ⟨.httpExc 400 ("Address with ip=" ++ rec.ip ++ " already exists!"),
           db, []⟩) ∧
    (∀ (rec1 rec2 : RecordInput) (db : List Row),
       rec2.ip = rec1.ip →
       selectByIp db rec1.ip = [] →
       (add_ip false false rec1 db).outcome = .ok rec1 ∧
       (add_ip false false rec2 (add_ip false false rec1 db).db).outcome =
         .httpExc 400 ("Address with ip=" ++ rec2.ip ++ " already exists!")) := by
  constructor
  · intro rec db failInsert h
    simp [add_ip, h]
  · intro rec1 rec2 db h2 h1
    have hout : add_ip false false rec1 db =
        ⟨.ok rec1, db ++ [rec1.toRow (newRowId db)], []⟩ := by
      simp [add_ip, h1]
    rw [hout]
    refine ⟨rfl, ?_⟩
    have hne : selectByIp (db ++ [rec1.toRow (newRowId db)]) rec2.ip ≠ [] := by
      simp only [selectByIp, List.filter_append, h2] at h1 ⊢
      simp [h1, RecordInput.toRow]
    simp [add_ip, hne]

theorem C3_duplicate_conflict_witness :
    ((⟨"1.2.3.44", "Poland", "Silesia", "Katowice", 40514, 34, -118⟩ :
        RecordInput).ip =
      (⟨"1.2.3.44", "Poland", "Silesia", "Katowice", 40514, 34, -118⟩ :
        RecordInput).ip) ∧
    selectByIp []
      (⟨"1.2.3.44", "Poland", "Silesia", "Katowice", 40514, 34, -118⟩ :
        RecordInput).ip = [] ∧
    ((add_ip false false
        ⟨"1.2.3.44", "Poland", "Silesia", "Katowice", 40514, 34, -118⟩
        []).outcome =
      .ok ⟨"1.2.3.44", "Poland", "Silesia", "Katowice", 40514, 34, -118⟩ ∧
    (add_ip false false
        ⟨"1.2.3.44", "Poland", "Silesia", "Katowice", 40514, 34, -118⟩
        (add_ip false false
          ⟨"1.2.3.44", "Poland", "Silesia", "Katowice", 40514, 34, -118⟩
          []).db).outcome =
      .httpExc 400
        ("Address with ip=" ++
          (⟨"1.2.3.44", "Poland", "Silesia", "Katowice", 40514, 34, -118⟩ :
            RecordInput).ip ++ " already exists!")) :=
  ⟨rfl, rfl, C3_duplicate_conflict.2 _ _ [] rfl rfl⟩

/-- C5: for a filter-search request with at least one filter present, if the
executed query (conjunctive equality filter plus LIMIT) fetches zero rows
the endpoint fails with 404 (NotFound), and otherwise it returns exactly the
fetched rows mapped through the record mapper. -/
theorem C5_filter_results (p : FilterParams) (limit : Option Nat)
    (db : List Row) (hp : p.allAbsent = false) :
    (runFilterSelect db p.toSqlMapper limit = [] →
       get_ip_info_by_parameters false p limit db =
         .httpExc 404 "No data found for provided parameters!") ∧
    (runFilterSelect db p.toSqlMapper limit ≠ [] →
       get_ip_info_by_parameters false p limit db =
         .ok (transform_rows_to_records
               (runFilterSelect db p.toSqlMapper limit))) := by
  constructor <;> intro h <;> simp [get_ip_info_by_parameters, hp, h]

theorem C5_filter_results_witness :
    (({ ip := none, country := some "Poland", region := none, city := none,
        zip_code := none, latitude := none, longitude := none } :
          FilterParams).allAbsent = false) ∧
    ((runFilterSelect
        [⟨1, "1.2.3.44", "Poland", "Silesia", "Katowice", 40514, 34, -118⟩]
        ({ ip := none, country := some "Poland", region := none, city := none,
           zip_code := none, latitude := none, longitude := none } :
             FilterParams).toSqlMapper (some 10) = [] →
      get_ip_info_by_parameters false
        { ip := none, country := some "Poland", region := none, city := none,
          zip_code := none, latitude := none, longitude := none } (some 10)
        [⟨1, "1.2.3.44", "Poland", "Silesia", "Katowice", 40514, 34, -118⟩] =
        .httpExc 404 "No data found for provided parameters!") ∧
    (runFilterSelect
        [⟨1, "1.2.3.44", "Poland", "Silesia", "Katowice", 40514, 34, -118⟩]
        ({ ip := none, country := some "Poland", region := none, city := none,
           zip_code := none, latitude := none, longitude := none } :
             FilterParams).toSqlMapper (some 10) ≠ [] →
      get_ip_info_by_parameters false
        { ip := none, country := some "Poland", region := none, city := none,
          zip_code := none, latitude := none, longitude := none } (some 10)
        [⟨1, "1.2.3.44", "Poland", "Silesia", "Katowice", 40514, 34, -118⟩] =
        .ok (transform_rows_to_records
              (runFilterSelect
                [⟨1, "1.2.3.44", "Poland", "Silesia", "Katowice", 40514, 34,
                  -118⟩]
                ({ ip := none, country := some "Poland", region := none,
                   city := none, zip_code := none, latitude := none,
                   longitude := none } : FilterParams).toSqlMapper
                (some 10))))) :=
  ⟨rfl, C5_filter_results _ _ _ rfl⟩

/-- C6: an update request with no update field supplied fails with 400
(BadRequest) for every table state and every statement-failure injection —
before any storage access, hence taking precedence over NotFound even when
the target ip does not exist; and an update with at least one field supplied
but no stored row for the target ip fails with 404 (NotFound), leaving the
table unchanged. -/
theorem C6_update_validation :
    (∀ (failCheck failUpdate failReread : Bool) (ip : String) (db : List Row),
       update_data failCheck failUpdate failReread ip
           { country := none, region := none, city := none, zip_code := none,
             latitude := none, longitude := none } db =
         ⟨.httpExc 400 "No parameters passed!", db, []⟩) ∧
    (∀ (ip : String) (p : UpdateParams) (db : List Row),
       p.allAbsent = false → selectByIp db ip = [] →
       update_data false false false ip p db =
         ⟨.httpExc 404 ("No data found for ip=" ++ ip ++ "!"), db, []⟩) := by
  constructor
  · intro failCheck failUpdate failReread ip db
    rfl
  · intro ip p db hp hmiss
    simp [update_data, hp, hmiss]

theorem C6_update_validation_witness :
    (({ country := some "France", region := none, city := none,
        zip_code := none, latitude := none, longitude := none } :
          UpdateParams).allAbsent = false) ∧
    selectByIp [] "1.2.3.44" = [] ∧
    update_data true true true "9.9.9.99"
        { country := none, region := none, city := none, zip_code := none,
          latitude := none, longitude := none } [] =
      ⟨.httpExc 400 "No parameters passed!", [], []⟩ ∧
    update_data false false false "1.2.3.44"
        { country := some "France", region := none, city := none,
          zip_code := none, latitude := none, longitude := none } [] =
      ⟨.httpExc 404 ("No data found for ip=" ++ "1.2.3.44" ++ "!"), [], []⟩ :=
  ⟨rfl, rfl, C6_update_validation.1 true true true "9.9.9.99" [],
    C6_update_validation.2 "1.2.3.44" _ [] rfl rfl⟩

/-- C7: a successful update on a stored ip changes only the supplied fields:
the table keeps its length, every row keeps its id and its ip_address, rows
with a different ip are completely unchanged, and in every row with the
target ip each supplied field takes the supplied value while each unsupplied
field keeps its prior value; the built UPDATE statement carries one
assignment fragment per supplied field and binds the supplied values in
declaration order with the target ip as the final bound parameter; and the
endpoint returns the first record of the re-read rows for the target ip. -/
theorem C7_update_frame (ip : String) (p : UpdateParams) (db : List Row)
    (hp : p.allAbsent = false) (hex : selectByIp db ip ≠ []) :
    (update_data_query ip p).1 =
      updateQueryText
        ((presentPairs p.toSqlMapper).map fun a => a.1 ++ " = ?") ∧
    (update_data_query ip p).2 =
      (presentPairs p.toSqlMapper).map Prod.snd ++ [Value.str ip] ∧
    (update_data false false false ip p db).db.length = db.length ∧
    (∀ i : Nat, ∀ r : Row, db[i]? = some r →
      ∃ r2 : Row, (update_data false false false ip p db).db[i]? = some r2 ∧
        r2.id = r.id ∧ r2.ip_address = r.ip_address ∧
        (r.ip_address ≠ ip → r2 = r) ∧
        (r.ip_address = ip →
          r2.country = p.country.getD r.country ∧
          r2.region = p.region.getD r.region ∧
          r2.city = p.city.getD r.city ∧
          r2.zip = p.zip_code.getD r.zip ∧
          r2.latitude = p.latitude.getD r.latitude ∧
          r2.longitude = p.longitude.getD r.longitude)) ∧
    (update_data false false false ip p db).outcome =
      .ok ((transform_rows_to_records
             (selectByIp (update_data false false false ip p db).db
               ip)).headI) := by
  have hdb := update_data_success_db ip p db hp hex
  refine ⟨?_, ?_, ?_, ?_, ?_⟩
  · unfold update_data_query
    rw [buildConditions_eq]
  · unfold update_data_query
    rw [buildConditions_eq]
  · rw [hdb, runUpdate_length]
  · intro i r hr
    rw [hdb, runUpdate_get, hr, Option.map_some']
    by_cases hip : r.ip_address = ip
    · refine ⟨_, rfl, ?_⟩
      rw [if_pos hip, applyAssignments_toSqlMapper]
      exact ⟨rfl, rfl, fun hc => absurd hip hc,
        fun _ => ⟨rfl, rfl, rfl, rfl, rfl, rfl⟩⟩
    · refine ⟨_, rfl, ?_⟩
      rw [if_neg hip]
      exact ⟨rfl, rfl, fun _ => rfl, fun hc => absurd hc hip⟩
  · rw [hdb]
    exact update_data_success_outcome ip p db hp hex

theorem C7_update_frame_witness :
    ((⟨none, some "Lesser Poland", some "Krakow", none, none, none⟩ :
        UpdateParams).allAbsent = false) ∧
    selectByIp [⟨1, "1.2.3.44", "Poland", "Silesia", "Katowice", 40514, 34,
      -118⟩] "1.2.3.44" ≠ [] ∧
    ((update_data_query "1.2.3.44"
        ⟨none, some "Lesser Poland", some "Krakow", none, none, none⟩).1 =
      updateQueryText
        ((presentPairs (⟨none, some "Lesser Poland", some "Krakow", none,
            none, none⟩ : UpdateParams).toSqlMapper).map
          fun a => a.1 ++ " = ?") ∧
    (update_data_query "1.2.3.44"
        ⟨none, some "Lesser Poland", some "Krakow", none, none, none⟩).2 =
      (presentPairs (⟨none, some "Lesser Poland", some "Krakow", none, none,
          none⟩ : UpdateParams).toSqlMapper).map Prod.snd ++
        [Value.str "1.2.3.44"] ∧
    (update_data false false false "1.2.3.44"
        ⟨none, some "Lesser Poland", some "Krakow", none, none, none⟩
        [⟨1, "1.2.3.44", "Poland", "Silesia", "Katowice", 40514, 34,
          -118⟩]).db.length =
      [(⟨1, "1.2.3.44", "Poland", "Silesia", "Katowice", 40514, 34, -118⟩ :
        Row)].length ∧
    (∀ i : Nat, ∀ r : Row,
      [(⟨1, "1.2.3.44", "Poland", "Silesia", "Katowice", 40514, 34, -118⟩ :
        Row)][i]? = some r →
      ∃ r2 : Row,
        (update_data false false false "1.2.3.44"
            ⟨none, some "Lesser Poland", some "Krakow", none, none, none⟩
            [⟨1, "1.2.3.44", "Poland", "Silesia", "Katowice", 40514, 34,
              -118⟩]).db[i]? = some r2 ∧
        r2.id = r.id ∧ r2.ip_address = r.ip_address ∧
        (r.ip_address ≠ "1.2.3.44" → r2 = r) ∧
        (r.ip_address = "1.2.3.44" →
          r2.country = (none : Option String).getD r.country ∧
          r2.region = (some "Lesser Poland" : Option String).getD r.region ∧
          r2.city = (some "Krakow" : Option String).getD r.city ∧
          r2.zip = (none : Option Int).getD r.zip ∧
          r2.latitude = (none : Option Rat).getD r.latitude ∧
          r2.longitude = (none : Option Rat).getD r.longitude)) ∧
    (update_data false false false "1.2.3.44"
        ⟨none, some "Lesser Poland", some "Krakow", none, none, none⟩
        [⟨1, "1.2.3.44", "Poland", "Silesia", "Katowice", 40514, 34,
          -118⟩]).outcome =
      .ok ((transform_rows_to_records
             (selectByIp
               (update_data false false false "1.2.3.44"
                 ⟨none, some "Lesser Poland", some "Krakow", none, none, none⟩
                 [⟨1, "1.2.3.44", "Poland", "Silesia", "Katowice", 40514, 34,
                   -118⟩]).db "1.2.3.44")).headI)) :=
  ⟨rfl, by decide, C7_update_frame "1.2.3.44" _ _ rfl (by decide)⟩

/-- C10: when several stored rows share the target ip, a successful update
applies every supplied assignment to all of them — the re-read rows for the
target ip are exactly the prior matching rows each passed through the full
assignment list — yet the response record is taken exclusively from the
first row of the re-read result set. -/
theorem C10_multi_row_update (ip : String) (p : UpdateParams)
    (db : List Row) (hp : p.allAbsent = false)
    (hmulti : 2 ≤ (selectByIp db ip).length) :
    selectByIp (update_data false false false ip p db).db ip =
      (selectByIp db ip).map
        (applyAssignments (presentPairs p.toSqlMapper)) ∧
    2 ≤ (selectByIp (update_data false false false ip p db).db ip).length ∧
    (update_data false false false ip p db).outcome =
      .ok ((transform_rows_to_records
             (selectByIp (update_data false false false ip p db).db
               ip)).headI) := by
  have hex : selectByIp db ip ≠ [] := by
    intro hnil
    rw [hnil] at hmulti
    simp at hmulti
  have hdb := update_data_success_db ip p db hp hex
  rw [hdb, selectByIp_runUpdate]
  refine ⟨rfl, ?_, ?_⟩
  · simpa using hmulti
  · rw [← selectByIp_runUpdate, ← hdb]
    rw [hdb]
    exact update_data_success_outcome ip p db hp hex

theorem C10_multi_row_update_witness :
    ((⟨some "Germany", none, none, none, none, none⟩ :
        UpdateParams).allAbsent = false) ∧
    2 ≤ (selectByIp
          [⟨1, "1.2.3.44", "Poland", "Silesia", "Katowice", 40514, 34, -118⟩,
           ⟨2, "1.2.3.44", "France", "Occitanie", "Toulouse", 31000, 43, 1⟩]
          "1.2.3.44").length ∧
    (selectByIp
        (update_data false false false "1.2.3.44"
          ⟨some "Germany", none, none, none, none, none⟩
          [⟨1, "1.2.3.44", "Poland", "Silesia", "Katowice", 40514, 34, -118⟩,
           ⟨2, "1.2.3.44", "France", "Occitanie", "Toulouse", 31000, 43,
             1⟩]).db "1.2.3.44" =
      (selectByIp
          [⟨1, "1.2.3.44", "Poland", "Silesia", "Katowice", 40514, 34, -118⟩,
           ⟨2, "1.2.3.44", "France", "Occitanie", "Toulouse", 31000, 43, 1⟩]
          "1.2.3.44").map
        (applyAssignments
          (presentPairs (⟨some "Germany", none, none, none, none, none⟩ :
              UpdateParams).toSqlMapper)) ∧
    2 ≤ (selectByIp
          (update_data false false false "1.2.3.44"
            ⟨some "Germany", none, none, none, none, none⟩
            [⟨1, "1.2.3.44", "Poland", "Silesia", "Katowice", 40514, 34, -118⟩,
             ⟨2, "1.2.3.44", "France", "Occitanie", "Toulouse", 31000, 43,
               1⟩]).db "1.2.3.44").length ∧
    (update_data false false false "1.2.3.44"
        ⟨some "Germany", none, none, none, none, none⟩
        [⟨1, "1.2.3.44", "Poland", "Silesia", "Katowice", 40514, 34, -118⟩,
         ⟨2, "1.2.3.44", "France", "Occitanie", "Toulouse", 31000, 43,
           1⟩]).outcome =
      .ok ((transform_rows_to_records
             (selectByIp
               (update_data false false false "1.2.3.44"
                 ⟨some "Germany", none, none, none, none, none⟩
                 [⟨1, "1.2.3.44", "Poland", "Silesia", "Katowice", 40514, 34,
                   -118⟩,
                  ⟨2, "1.2.3.44", "France", "Occitanie", "Toulouse", 31000,
                    43, 1⟩]).db "1.2.3.44")).headI)) :=
  ⟨rfl, by decide, C10_multi_row_update "1.2.3.44" _ _ rfl (by decide)⟩

/-- C2: for a filter-search request with at least one filter present, the
built SELECT statement consists of exactly one `column = ?` equality
condition per present filter, joined by " AND " only, after a single WHERE
and followed only by the LIMIT clause; the bound parameter list holds
exactly the present filter values, positionally matching the condition
clauses, and the condition columns appear in the fixed declaration order
(ip_address, country, region, city, zip, latitude, longitude). -/
theorem C2_filter_query_shape (p : FilterParams) (limit : Option Nat)
    (hp : p.allAbsent = false) :
    presentPairs p.toSqlMapper ≠ [] ∧
    (filter_search_query p limit).1 =
      "SELECT * FROM geolocation" ++ " WHERE " ++
        String.intercalate " AND "
          ((presentPairs p.toSqlMapper).map fun a => a.1 ++ " = ?") ++
        limitClause limit ∧
    (filter_search_query p limit).2 =
      (presentPairs p.toSqlMapper).map Prod.snd ∧
    ((presentPairs p.toSqlMapper).map Prod.fst).Sublist
      ["ip_address", "country", "region", "city", "zip", "latitude",
       "longitude"] ∧
    (filter_search_query p limit).2.length =
      (presentPairs p.toSqlMapper).length := by
  have hne := filterParams_present p hp
  refine ⟨hne, ?_, ?_, ?_, ?_⟩
  · simp only [filter_search_query, filterQueryText, buildConditions_eq]
    rw [if_neg (by simp [hne])]
  · unfold filter_search_query
    rw [buildConditions_eq]
  · have hs := presentPairs_fst_sublist p.toSqlMapper
    have hfst : p.toSqlMapper.map Prod.fst =
        ["ip_address", "country", "region", "city", "zip", "latitude",
         "longitude"] := rfl
    rwa [hfst] at hs
  · unfold filter_search_query
    rw [buildConditions_eq]
    simp

theorem C2_filter_query_shape_witness :
    ((⟨some "1.2.3.44", none, none, some "Katowice", none, none, none⟩ :
        FilterParams).allAbsent = false) ∧
    (presentPairs (⟨some "1.2.3.44", none, none, some "Katowice", none, none,
        none⟩ : FilterParams).toSqlMapper ≠ [] ∧
    (filter_search_query
        ⟨some "1.2.3.44", none, none, some "Katowice", none, none, none⟩
        (some 10)).1 =
      "SELECT * FROM geolocation" ++ " WHERE " ++
        String.intercalate " AND "
          ((presentPairs (⟨some "1.2.3.44", none, none, some "Katowice", none,
              none, none⟩ : FilterParams).toSqlMapper).map
            fun a => a.1 ++ " = ?") ++
        limitClause (some 10) ∧
    (filter_search_query
        ⟨some "1.2.3.44", none, none, some "Katowice", none, none, none⟩
        (some 10)).2 =
      (presentPairs (⟨some "1.2.3.44", none, none, some "Katowice", none,
          none, none⟩ : FilterParams).toSqlMapper).map Prod.snd ∧
    ((presentPairs (⟨some "1.2.3.44", none, none, some "Katowice", none, none,
        none⟩ : FilterParams).toSqlMapper).map Prod.fst).Sublist
      ["ip_address", "country", "region", "city", "zip", "latitude",
       "longitude"] ∧
    (filter_search_query
        ⟨some "1.2.3.44", none, none, some "Katowice", none, none, none⟩
        (some 10)).2.length =
      (presentPairs (⟨some "1.2.3.44", none, none, some "Katowice", none,
          none, none⟩ : FilterParams).toSqlMapper).length) :=
  ⟨rfl, C2_filter_query_shape _ (some 10) rfl⟩

/-- C9 counterexample: the claim that every storage failure is caught at the
failing statement, surfaced as a 500 with empty detail and logged
server-side is false.  A failing statement in the point-lookup read handler
is not caught there (no try/except exists), so the exception escapes the
handler instead of becoming a 500 with empty detail; and the caught
existence-check failure in the create handler surfaces a 500 but logs
nothing. -/
theorem C9_error_cex :
    get_ip_info true "1.2.3.44" [] = Outcome.uncaught ∧
    (Outcome.uncaught : Outcome (List Record)) ≠ Outcome.httpExc 500 "" ∧
    (add_ip true false ⟨"9.9.9.99", "A", "B", "C", 1, 0, 0⟩ []).outcome =
      Outcome.httpExc 500 "" ∧
    (add_ip true false ⟨"9.9.9.99", "A", "B", "C", 1, 0, 0⟩ []).log = [] := by
  refine ⟨rfl, by decide, rfl, rfl⟩

/-- C9 (amended): in the create and update handlers every storage failure is
caught at the failing statement and surfaced as a 500 with empty detail, but
the underlying cause is logged only for the INSERT and for the
UPDATE-execution and re-read statements, not for the two existence-check
reads; in the point-lookup and filter-search handlers storage failures are
not caught at all and propagate out of the handler; a re-read failure after
a successful UPDATE leaves the update committed. -/
theorem C9_error_surfacing :
    (∀ (ip : String) (db : List Row),
       get_ip_info true ip db = Outcome.uncaught) ∧
    (∀ (p : FilterParams) (limit : Option Nat) (db : List Row),
       p.allAbsent = false →
       get_ip_info_by_parameters true p limit db = Outcome.uncaught) ∧
    (∀ (rec : RecordInput) (db : List Row),
       add_ip true false rec db = ⟨.httpExc 500 "", db, []⟩) ∧
    (∀ (rec : RecordInput) (db : List Row),
       selectByIp db rec.ip = [] →
       add_ip false true rec db = ⟨.httpExc 500 "", db, ["Database error"]⟩) ∧
    (∀ (ip : String) (p : UpdateParams) (db : List Row),
       p.allAbsent = false →
       update_data true false false ip p db = ⟨.httpExc 500 "", db, []⟩) ∧
    (∀ (ip : String) (p : UpdateParams) (db : List Row),
       p.allAbsent = false → selectByIp db ip ≠ [] →
       update_data false true false ip p db =
         ⟨.httpExc 500 "", db, ["Database error"]⟩) ∧
    (∀ (ip : String) (p : UpdateParams) (db : List Row),
       p.allAbsent = false → selectByIp db ip ≠ [] →
       update_data false false true ip p db =
         ⟨.httpExc 500 "", runUpdate db (presentPairs p.toSqlMapper) ip,
           ["Database error"]⟩) := by
  refine ⟨fun ip db => rfl, ?_, fun rec db => rfl, ?_, ?_, ?_, ?_⟩
  · intro p limit db hp
    simp [get_ip_info_by_parameters, hp]
  · intro rec db h
    simp [add_ip, h]
  · intro ip p db hp
    simp [update_data, hp]
  · intro ip p db hp hex
    simp [update_data, hp, hex]
  · intro ip p db hp hex
    simp [update_data, hp, hex]

theorem C9_error_surfacing_witness :
    ((⟨some "Poland", none, none, none, none, none, none⟩ :
        FilterParams).allAbsent = false) ∧
    selectByIp [] ("9.9.9.98" : String) = [] ∧
    ((⟨some "Hungary", none, none, none, none, none⟩ :
        UpdateParams).allAbsent = false) ∧
    selectByIp [⟨1, "1.2.3.44", "Poland", "Silesia", "Katowice", 40514, 34,
      -118⟩] "1.2.3.44" ≠ [] ∧
    get_ip_info true "1.2.3.44" [] = Outcome.uncaught ∧
    get_ip_info_by_parameters true
        ⟨some "Poland", none, none, none, none, none, none⟩ (some 10) [] =
      Outcome.uncaught ∧
    add_ip true false ⟨"9.9.9.98", "A", "B", "C", 1, 0, 0⟩ [] =
      ⟨.httpExc 500 "", [], []⟩ ∧
    add_ip false true ⟨"9.9.9.98", "A", "B", "C", 1, 0, 0⟩ [] =
      ⟨.httpExc 500 "", [], ["Database error"]⟩ ∧
    update_data true false false "1.2.3.44"
        ⟨some "Hungary", none, none, none, none, none⟩ [] =
      ⟨.httpExc 500 "", [], []⟩ ∧
    update_data false true false "1.2.3.44"
        ⟨some "Hungary", none, none, none, none, none⟩
        [⟨1, "1.2.3.44", "Poland", "Silesia", "Katowice", 40514, 34, -118⟩] =
      ⟨.httpExc 500 "",
        [⟨1, "1.2.3.44", "Poland", "Silesia", "Katowice", 40514, 34, -118⟩],
        ["Database error"]⟩ ∧
    update_data false false true "1.2.3.44"
        ⟨some "Hungary", none, none, none, none, none⟩
        [⟨1, "1.2.3.44", "Poland", "Silesia", "Katowice", 40514, 34, -118⟩] =
      ⟨.httpExc 500 "",
        runUpdate
          [⟨1, "1.2.3.44", "Poland", "Silesia", "Katowice", 40514, 34, -118⟩]
          (presentPairs (⟨some "Hungary", none, none, none, none, none⟩ :
            UpdateParams).toSqlMapper) "1.2.3.44",
        ["Database error"]⟩ :=
  ⟨rfl, rfl, rfl, by decide,
    C9_error_surfacing.1 "1.2.3.44" [],
    C9_error_surfacing.2.1 _ (some 10) [] rfl,
    C9_error_surfacing.2.2.1 _ [],
    C9_error_surfacing.2.2.2.1 _ [] rfl,
    C9_error_surfacing.2.2.2.2.1 "1.2.3.44" _ [] rfl,
    C9_error_surfacing.2.2.2.2.2.1 "1.2.3.44" _ _ rfl (by decide),
    C9_error_surfacing.2.2.2.2.2.2 "1.2.3.44" _ _ rfl (by decide)⟩

/-- C1 (code bug): the claimed create-then-lookup sanitization never
happens.  In the source `sanitize_strings` carries `@classmethod` above
`@field_validator`, so pydantic never registers it and string fields are
stored verbatim.  For the valid input with country "poland" the
create-then-lookup round trip returns country "poland", while the sanitizer
the code defines (and the claim demands) would produce "Poland". -/
theorem C1_sanitization_bug :
    (⟨"1.2.3.4", "poland", "silesia", "katowice", 40514, 34,
        -118⟩ : RecordInput).Valid ∧
    (add_ip false false
        ⟨"1.2.3.4", "poland", "silesia", "katowice", 40514, 34,
          -118⟩ []).outcome =
      .ok ⟨"1.2.3.4", "poland", "silesia", "katowice", 40514, 34,
        -118⟩ ∧
    get_ip_info false "1.2.3.4"
        (add_ip false false
          ⟨"1.2.3.4", "poland", "silesia", "katowice", 40514, 34,
            -118⟩ []).db =
      .ok [⟨"1.2.3.4", "poland", "silesia", "katowice", 40514, 34,
        -118⟩] ∧
    sanitize_strings "poland" = "Poland" ∧
    ("poland" : String) ≠ "Poland" := by
  refine ⟨by decide, rfl, by decide, by decide, by decide⟩

end ApiGeolocation
